import Mathlib

/-!
Verification of the parts-lookup agent workflow of the `hrspwr` repository
(`src/apps/agents/parts_lookup/` and
`src/apps/agents/lambda_layers/lambda_utils/lib/openai_client.py`).

The Python code is shallowly embedded: pure helpers become Lean functions;
each LangGraph node becomes a function from the agent state to
`Except String AgentState` (a `.error` value models a Python exception
escaping the node); external effects (the OpenAI calls, the catalog REST
API, the `prompts.json` file load, the article-detail fetches) are passed
in as oracle values of type `Except String _` describing the outcome the
environment produced for that call.  Python strings are `String`, Python
ints are `Int` (truthiness of an int is `≠ 0`, of a string `≠ ""`),
absent dictionary keys are `Option`.
-/

/-- Model of the search for the first occurrence of `sep` in a character
list: returns `some (before, after)` when `sep` occurs, splitting at the
leftmost occurrence, and `none` otherwise. -/
def splitFirst (sep : List Char) : List Char → Option (List Char × List Char)
  | [] => if sep.isPrefixOf ([] : List Char) then some ([], []) else none
  | c :: cs =>
    if sep.isPrefixOf (c :: cs) then some ([], (c :: cs).drop sep.length)
    else (splitFirst sep cs).map (fun p => (c :: p.1, p.2))

/-- Model of Python `str.partition(sep)` (for non-empty `sep`): the triple
`(before, sep-or-empty, after)` at the first occurrence of `sep`, and
`(s, "", "")` when `sep` does not occur. -/
def pyPartition (s sep : String) : String × String × String :=
  match splitFirst sep.data s.data with
  | none => (s, "", "")
  | some (b, a) => (⟨b⟩, sep, ⟨a⟩)

/-- Model of Python `str.strip()`: remove leading and trailing whitespace. -/
def pyStrip (s : String) : String :=
  ⟨((s.data.dropWhile Char.isWhitespace).reverse.dropWhile Char.isWhitespace).reverse⟩

/-- Model of Python `str.lower()` (ASCII letters, as used by the code). -/
def pyLower (s : String) : String :=
  ⟨s.data.map Char.toLower⟩

/-- Code-point lexicographic strict comparison of character lists: the
ordering Python uses to compare strings. -/
def charListLt : List Char → List Char → Bool
  | [], [] => false
  | [], _ :: _ => true
  | _ :: _, [] => false
  | a :: as, b :: bs => if a < b then true else if b < a then false else charListLt as bs

/-- Non-strict code-point lexicographic comparison of strings, i.e. the
total order under which Python's `sorted` arranges strings ascending. -/
def pyStrLe (a b : String) : Bool := !(charListLt b.data a.data)

/-- Model of Python `sorted` on a list of strings (ascending). -/
def pySorted (l : List String) : List String :=
  List.insertionSort (fun a b => pyStrLe a b = true) l

/-- Embedding of `openai_client._parse_xml_tag`: partition the response at the
first `<tag>`, partition the remainder at the first `</tag>`, raise
`ValueError` when the extracted content is the empty string, otherwise return
the content stripped of surrounding whitespace. -/
def parseXmlTag (response tag : String) : Except String String :=
  let openingTag := "<" ++ tag ++ ">"
  let closingTag := "</" ++ tag ++ ">"
  let afterOpening := (pyPartition response openingTag).2.2
  let content := (pyPartition afterOpening closingTag).1
  if content = "" then .error ("Tag " ++ openingTag ++ " not found in response")
  else .ok (pyStrip content)

/-- A catalog article as used by the workflow: the two keys the code reads,
each possibly absent (`article.get(...)`). -/
structure Article where
  articleProductName : Option String := none
  articleId : Option Int := none
deriving DecidableEq

/-- Truthy product name of an article, as tested by `_extract_parts`
(`'articleProductName' in article and article['articleProductName']`). -/
def truthyName (a : Article) : Option String :=
  match a.articleProductName with
  | some s => if s = "" then none else some s
  | none => none

/-- Embedding of `nodes._extract_parts`: collect the set of truthy
`articleProductName` values and return them sorted ascending. -/
def extractParts (parts_list : List Article) : List String :=
  if parts_list = [] then []
  else pySorted (parts_list.filterMap truthyName).dedup

/-- A chat message (`{'role': ..., 'content': ...}`). -/
structure Msg where
  role : String
  content : String
deriving DecidableEq

/-- The result dictionary produced by `match_part_node` (keys absent in a
given branch are modelled as `""`). -/
structure PartResult where
  status : String := ""
  message : String := ""
  part_name : String := ""
  category_id : String := ""
deriving DecidableEq

/-- Embedding of the `AgentState` TypedDict of `parts_agent.py` (plus the
`category_name` key that `infer_category_node` adds).  `result = none`
models the empty dictionary `{}`. -/
structure AgentState where
  part_description : String := ""
  categories : String := ""
  category_id : String := ""
  category_name : String := ""
  parts_list : List Article := []
  chat_history : List Msg := []
  retry_count : Nat := 0
  result : Option PartResult := none
  error : String := ""
  vehicle_id : Int := 0
  country_filter_id : Int := 0
  oem_numbers : List String := []
  s3image_uri : String := ""
deriving DecidableEq

/-- The prompt templates loaded from `prompts.json`.  The two `.format`
templates are modelled as functions of the interpolated values. -/
structure Prompts where
  system : String
  invalid_category : String
  inferCategoryFmt : String → String → String
  matchPartFmt : String → String → String

/-- The JSON payload of the catalog articles-list endpoint as read by
`get_parts_list_node` (`data.get('articles', [])`,
`data.get('countArticles', 0)`). -/
structure CatalogResp where
  articles : List Article := []
  countArticles : Int := 0
deriving DecidableEq

/-- One entry of the `oemNo` list of an article-details payload. -/
structure OemEntry where
  oemDisplayNo : Option String := none
deriving DecidableEq

/-- The article-details payload as read by `get_part_details_node`
(`data.get('article', {}).get('oemNo', [])` and `.get('s3image', '')`). -/
structure ArticleDetails where
  oemNo : List OemEntry := []
  s3image : String := ""
deriving DecidableEq

/-- The truthy `oemDisplayNo` values of a details payload, in order: the
list comprehension `[oem.get('oemDisplayNo') for oem in oem_list if
oem.get('oemDisplayNo')]`. -/
def displayNums (d : ArticleDetails) : List String :=
  d.oemNo.filterMap fun o =>
    match o.oemDisplayNo with
    | some s => if s = "" then none else some s
    | none => none

/-- The `try:` block of `infer_category_node`: load prompts, call the model,
parse the `subcategory_id` and `category` tags, extend the chat history. -/
def inferCategoryBody (prompts : Except String Prompts)
    (llm : Except String String) (st : AgentState) : Except String AgentState :=
  match prompts with
  | .error e => .error e
  | .ok p =>
    let user_prompt := p.inferCategoryFmt st.part_description st.categories
    match llm with
    | .error e => .error e
    | .ok r =>
      match parseXmlTag r "subcategory_id" with
      | .error e => .error e
      | .ok cid =>
        match parseXmlTag r "category" with
        | .error e => .error e
        | .ok cname =>
          .ok { st with
                category_id := cid
                category_name := cname
                chat_history := st.chat_history ++ [⟨"user", user_prompt⟩, ⟨"assistant", r⟩]
                error := "" }

/-- Embedding of `infer_category_node`: the body with its `except` handler,
which records the failure in the state's `error` field. -/
def inferCategoryNode (prompts : Except String Prompts)
    (llm : Except String String) (st : AgentState) : Except String AgentState :=
  match inferCategoryBody prompts llm st with
  | .ok s => .ok s
  | .error e => .ok { st with error := "Category inference failed: " ++ e }

/-- The `try:` block of `get_parts_list_node`: validate the API key,
`vehicle_id` and `category_id`, query the catalog, and on an empty result
append the `invalid_category` prompt to the history, bump the retry counter
and tag the state `API_UNAVAILABLE`. -/
def getPartsListBody (key : String) (prompts : Except String Prompts)
    (api : Except String CatalogResp) (st : AgentState) : Except String AgentState :=
  if key = "" then .error "RAPIDAPI_KEY environment variable not set"
  else if st.vehicle_id = 0 then .error "vehicle_id not provided in state"
  else if st.category_id = "" then .error "category_id not provided in state"
  else
    match api with
    | .error e => .error e
    | .ok resp =>
      if resp.articles = [] ∨ resp.countArticles = 0 then
        match prompts with
        | .error e => .error e
        | .ok p =>
          .ok { st with
                chat_history := st.chat_history ++ [⟨"user", p.invalid_category⟩]
                retry_count := st.retry_count + 1
                error := "API_UNAVAILABLE" }
      else
        .ok { st with parts_list := resp.articles, error := "" }

/-- Embedding of `get_parts_list_node`: the body with its `except` handler.
The handler itself calls `_load_prompts()` again, so when loading the
prompts file fails the handler re-raises instead of absorbing the error. -/
def getPartsListNode (key : String) (prompts : Except String Prompts)
    (api : Except String CatalogResp) (st : AgentState) : Except String AgentState :=
  match getPartsListBody key prompts api st with
  | .ok s => .ok s
  | .error _ =>
    match prompts with
    | .error e => .error e
    | .ok p =>
      .ok { st with
            chat_history := st.chat_history ++ [⟨"user", p.invalid_category⟩]
            retry_count := st.retry_count + 1
            error := "API_ERROR" }

/-- The `try:` block of `match_part_node`, instrumented with the number of
model invocations it performed (0 or 1): extract the distinct candidate
names; an empty set is a `NO_MATCH`, a single candidate is accepted as a
`SUCCESS` without calling the model; otherwise the model is asked and its
`<replacement>` answer is validated case-insensitively against the
candidates. -/
def matchPartRun (prompts : Except String Prompts) (llm : Except String String)
    (st : AgentState) : Except String AgentState × Nat :=
  let unique_parts := extractParts st.parts_list
  match unique_parts with
  | [] =>
    (.ok { st with result := some { status := "NO_MATCH", message := "No parts found in the category" }
                   error := "" }, 0)
  | [only] =>
    (.ok { st with result := some { status := "SUCCESS", part_name := only, category_id := st.category_id }
                   error := "" }, 0)
  | _ =>
    match prompts with
    | .error e => (.error e, 0)
    | .ok _ =>
      match llm with
      | .error e => (.error e, 1)
      | .ok r =>
        match parseXmlTag r "replacement" with
        | .error e => (.error e, 1)
        | .ok replacement_part =>
          if replacement_part = "" then
            (.ok { st with result := some { status := "NO_MATCH", message := "No suitable part found in the category" }
                           error := "" }, 1)
          else if (unique_parts.map pyLower).contains (pyLower (pyStrip replacement_part)) then
            (.ok { st with result := some { status := "SUCCESS", part_name := pyStrip replacement_part,
                                            category_id := st.category_id }
                           error := "" }, 1)
          else
            (.ok { st with result := some { status := "NO_MATCH", message := "No suitable part found in the category" }
                           error := "" }, 1)

/-- Embedding of `match_part_node`: the body with its `except` handler, which
records the failure in both the `result` and `error` fields. -/
def matchPartNode (prompts : Except String Prompts) (llm : Except String String)
    (st : AgentState) : Except String AgentState :=
  match (matchPartRun prompts llm st).1 with
  | .ok s => .ok s
  | .error e =>
    .ok { st with result := some { status := "ERROR", message := "Part matching failed: " ++ e }
                  error := "Part matching failed: " ++ e }

/-- Number of model invocations performed by `match_part_node`. -/
def matchPartLLMCalls (prompts : Except String Prompts) (llm : Except String String)
    (st : AgentState) : Nat :=
  (matchPartRun prompts llm st).2

/-- The `for article in parts_list:` loop of `get_part_details_node`: skip
entries whose name does not match `part_name` case-insensitively after
stripping, or which lack a truthy `articleId`; fetch details for the rest
and stop at the first entry yielding a non-empty truthy `oemDisplayNo`
list; after the loop return empty results with no error. -/
def detailScan (fetch : Int → Except String ArticleDetails) (st : AgentState)
    (part_name : String) : List Article → Except String AgentState
  | [] => .ok { st with oem_numbers := [], s3image_uri := "", error := "" }
  | a :: rest =>
    if pyLower (pyStrip (a.articleProductName.getD "")) = pyLower (pyStrip part_name) then
      match a.articleId with
      | none => detailScan fetch st part_name rest
      | some id =>
        if id = 0 then detailScan fetch st part_name rest
        else
          match fetch id with
          | .error e => .error e
          | .ok d =>
            if d.oemNo ≠ [] then
              if displayNums d ≠ [] then
                .ok { st with oem_numbers := displayNums d, s3image_uri := d.s3image, error := "" }
              else detailScan fetch st part_name rest
            else detailScan fetch st part_name rest
    else detailScan fetch st part_name rest

/-- The `part_name` that `get_part_details_node` reads from the state
(`state.get('result', {}).get('part_name', '')`). -/
def partNameOf (st : AgentState) : String :=
  match st.result with
  | some r => r.part_name
  | none => ""

/-- The `try:` block of `get_part_details_node`: validate the API key, the
part name and `country_filter_id`, then scan the parts list. -/
def getPartDetailsBody (key : String) (fetch : Int → Except String ArticleDetails)
    (st : AgentState) : Except String AgentState :=
  if key = "" then .error "RAPIDAPI_KEY environment variable not set"
  else if partNameOf st = "" then
    .ok { st with oem_numbers := [], error := "No part name found in result" }
  else if st.country_filter_id = 0 then
    .ok { st with oem_numbers := [], error := "country_filter_id not provided" }
  else detailScan fetch st (partNameOf st) st.parts_list

/-- Embedding of `get_part_details_node`: the body with its `except` handler,
which records the failure in the `error` field. -/
def getPartDetailsNode (key : String) (fetch : Int → Except String ArticleDetails)
    (st : AgentState) : Except String AgentState :=
  match getPartDetailsBody key fetch st with
  | .ok s => .ok s
  | .error e =>
    .ok { st with oem_numbers := [], s3image_uri := "", error := "Failed to get part details: " ++ e }

/-- Embedding of `should_retry` in `parts_agent.py`: route to
`infer_category` on a retryable error below the cap, to `end` at the cap,
and to `match_part` otherwise. -/
def shouldRetry (st : AgentState) : String :=
  if st.error = "API_UNAVAILABLE" ∨ st.error = "API_ERROR" then
    if st.retry_count ≥ 3 then "end" else "infer_category"
  else "match_part"

/-- The per-run external-world behavior of one workflow invocation: outcomes
of the prompts-file loads, model calls and catalog queries of iteration `i`
of the retry loop, of the single match-phase model call, and of the
article-detail fetches (indexed by article id). -/
structure Oracles where
  inferPrompts : Nat → Except String Prompts
  inferLlm : Nat → Except String String
  partsPrompts : Nat → Except String Prompts
  api : Nat → Except String CatalogResp
  matchPrompts : Except String Prompts
  matchLlm : Except String String
  fetch : Int → Except String ArticleDetails

/-- Outcome of driving the compiled graph: the final state (or the exception
that escaped a node), together with how many times `get_parts_list_node`
executed. -/
structure LoopOut where
  final : Except String AgentState
  partsCalls : Nat

/-- Execution of the compiled LangGraph: `infer_category` → `get_parts_list`
→ conditional routing per `should_retry` (loop back, proceed to
`match_part` → `get_part_details`, or end).  `fuel` bounds the recursion
(a modelling device only: `loopRun_fuel_sufficient` shows 4 is enough from
a fresh state); `i` numbers the loop iterations for the oracles. -/
def loopRun (key : String) (O : Oracles) : Nat → Nat → AgentState → Option LoopOut
  | 0, _, _ => none
  | fuel + 1, i, st =>
    match inferCategoryNode (O.inferPrompts i) (O.inferLlm i) st with
    | .error e => some ⟨.error e, 0⟩
    | .ok st1 =>
      match getPartsListNode key (O.partsPrompts i) (O.api i) st1 with
      | .error e => some ⟨.error e, 1⟩
      | .ok st2 =>
        if shouldRetry st2 = "infer_category" then
          match loopRun key O fuel (i + 1) st2 with
          | none => none
          | some out => some ⟨out.final, out.partsCalls + 1⟩
        else if shouldRetry st2 = "match_part" then
          match matchPartNode O.matchPrompts O.matchLlm st2 with
          | .error e => some ⟨.error e, 1⟩
          | .ok st3 =>
            match getPartDetailsNode key O.fetch st3 with
            | .error e => some ⟨.error e, 1⟩
            | .ok st4 => some ⟨.ok st4, 1⟩
        else some ⟨.ok st2, 1⟩

/-- The initial state built by `run_workflow`. -/
def initState (pd cats : String) (vid cfid : Int) : AgentState :=
  { part_description := pd
    categories := cats
    category_id := ""
    category_name := ""
    parts_list := []
    chat_history := []
    retry_count := 0
    result := none
    error := ""
    vehicle_id := vid
    country_filter_id := cfid
    oem_numbers := []
    s3image_uri := "" }

/-- The dictionary `run_workflow` returns (keys absent in a given branch are
modelled as `""` / `[]`). -/
structure WorkflowResult where
  status : String := ""
  message : String := ""
  part_name : String := ""
  category_id : String := ""
  retry_count : Nat := 0
  oem_numbers : List String := []
  s3image_uri : String := ""
deriving DecidableEq

/-- Embedding of `run_workflow`: build the initial state, drive the graph,
return a `MAX_RETRIES` record when the retry cap was hit with no result,
otherwise the final result augmented with `retry_count`, `oem_numbers` and
`s3image_uri`; an exception escaping the graph is caught and reported as an
`ERROR` record. -/
def runWorkflow (key : String) (O : Oracles) (pd cats : String) (vid cfid : Int) :
    WorkflowResult :=
  match loopRun key O 4 0 (initState pd cats vid cfid) with
  | some ⟨.ok fs, _⟩ =>
    if fs.retry_count ≥ 3 ∧ fs.result = none then
      { status := "MAX_RETRIES"
        message := "Unable to find valid category after 3 attempts"
        retry_count := fs.retry_count
        oem_numbers := []
        s3image_uri := "" }
    else
      let r := fs.result.getD {}
      { status := r.status
        message := r.message
        part_name := r.part_name
        category_id := r.category_id
        retry_count := fs.retry_count
        oem_numbers := fs.oem_numbers
        s3image_uri := fs.s3image_uri }
  | some ⟨.error e, _⟩ =>
    { status := "ERROR", message := "Workflow execution failed: " ++ e, retry_count := 0 }
  | none =>
    { status := "ERROR", message := "", retry_count := 0 }

/-- One record of the batch result: the workflow result of one part joined
with its original `part_description`. -/
structure ItemResult where
  part_description : String
  res : WorkflowResult
deriving DecidableEq

/-- Embedding of `lookup_parts._search_single_part`: run the workflow (its
outcome, or the exception it raised, given as `r`), tag the result with the
description; an exception becomes a structured `ERROR` record. -/
def searchSinglePart (r : Except String WorkflowResult) (pd : String) : ItemResult :=
  match r with
  | .ok w => ⟨pd, w⟩
  | .error e =>
    ⟨pd, { status := "ERROR", message := "Part search failed: " ++ e, retry_count := 0,
           oem_numbers := [], s3image_uri := "" }⟩

/-- Embedding of `lookup_parts.main`: reject an empty input list, otherwise
run one search per input concurrently and collect the records in completion
order.  The thread pool's completion order is modelled by the permutation
`σ`; `search i` is the outcome of the workflow run for input `i`. -/
def mainBatch (inputs : List String) (search : Nat → Except String WorkflowResult)
    (σ : Equiv.Perm (Fin inputs.length)) : Except String (List ItemResult) :=
  if inputs = [] then .error "parts_to_search cannot be empty"
  else .ok (List.ofFn fun j => searchSinglePart (search (σ j).val) (inputs.get (σ j)))

/-- A JSON value as relevant to `lambda_handler`'s validation: integers
(Python `bool` counts as `int` for `isinstance`), strings, arrays, and
objects (represented by their entry count). -/
inductive JsonVal where
  | int (n : Int)
  | bool (b : Bool)
  | str (s : String)
  | arr (n : Nat)
  | obj (n : Nat)
deriving DecidableEq

/-- Python truthiness of a JSON value. -/
def JsonVal.truthy : JsonVal → Bool
  | .int n => n ≠ 0
  | .bool b => b
  | .str s => s ≠ ""
  | .arr n => n ≠ 0
  | .obj n => n ≠ 0

/-- Python `isinstance(v, int)` (`bool` is a subclass of `int`). -/
def JsonVal.isInt : JsonVal → Bool
  | .int _ => true
  | .bool _ => true
  | _ => false

/-- Python `isinstance(v, dict)`. -/
def JsonVal.isDict : JsonVal → Bool
  | .obj _ => true
  | _ => false

/-- Python `isinstance(v, list)`. -/
def JsonVal.isArr : JsonVal → Bool
  | .arr _ => true
  | _ => false

/-- Python truthiness of `body.get(field)` (`none` models an absent key,
whose `get` result `None` is falsy). -/
def pyTruthy : Option JsonVal → Bool
  | none => false
  | some v => v.truthy

/-- The parsed request body of `lambda_handler`, holding the four fields the
handler reads. -/
structure RequestBody where
  vehicle_id : Option JsonVal := none
  country_filter_id : Option JsonVal := none
  categories : Option JsonVal := none
  parts : Option JsonVal := none
deriving DecidableEq

/-- Outcome of the `main(...)` call inside `lambda_handler`: a result list, a
raised `ValueError`, or another exception. -/
inductive MainOutcome where
  | ok (rs : List ItemResult)
  | valueError (msg : String)
  | otherError (msg : String)
deriving DecidableEq

/-- The API-Gateway response produced by `lambda_handler`: status code and
either an error message or the results payload. -/
structure LambdaResponse where
  statusCode : Nat
  error : Option String := none
  results : Option (List ItemResult) := none
  total_parts : Option Nat := none
deriving DecidableEq

/-- Embedding of `lookup_parts.lambda_handler` from the body parse onward
(the secrets load is environment setup outside the validation under study):
validate `vehicle_id`, `country_filter_id`, `categories` and `parts` in
order — each first for truthiness, then for its type — then run the batch
search; a `ValueError` from it maps to 400 and any other exception to
500. -/
def lambdaHandler (body : RequestBody) (mainCall : MainOutcome) : LambdaResponse :=
  if ¬ pyTruthy body.vehicle_id then
    { statusCode := 400, error := some "Missing required field: vehicle_id" }
  else if ¬ (body.vehicle_id.getD (.int 0)).isInt then
    { statusCode := 400, error := some "Field \"vehicle_id\" must be an integer" }
  else if ¬ pyTruthy body.country_filter_id then
    { statusCode := 400, error := some "Missing required field: country_filter_id" }
  else if ¬ (body.country_filter_id.getD (.int 0)).isInt then
    { statusCode := 400, error := some "Field \"country_filter_id\" must be an integer" }
  else if ¬ pyTruthy body.categories then
    { statusCode := 400, error := some "Missing required field: categories (dictionary)" }
  else if ¬ (body.categories.getD (.int 0)).isDict then
    { statusCode := 400, error := some "Field \"categories\" must be a dictionary" }
  else if ¬ pyTruthy body.parts then
    { statusCode := 400,
      error := some "Missing required field: parts (array of part description strings)" }
  else if ¬ (body.parts.getD (.int 0)).isArr then
    { statusCode := 400, error := some "Field \"parts\" must be an array of strings" }
  else
    match mainCall with
    | .ok rs => { statusCode := 200, results := some rs, total_parts := some rs.length }
    | .valueError m => { statusCode := 400, error := some m }
    | .otherError _ => { statusCode := 500, error := some "Parts lookup failed" }

/-- The raw text `_parse_xml_tag` extracts: the segment of `response` between
the first `<tag>` and the next `</tag>` (the rest of the string when the
closing tag is absent, the empty string when the opening tag is absent). -/
def rawTagContent (response tag : String) : String :=
  (pyPartition (pyPartition response ("<" ++ tag ++ ">")).2.2 ("</" ++ tag ++ ">")).1

/-- A catalog-query outcome that `get_parts_list_node` treats as empty or
failed: the request raised, or the payload carries no articles. -/
def catalogFails (r : Except String CatalogResp) : Prop :=
  match r with
  | .error _ => True
  | .ok c => c.articles = [] ∨ c.countArticles = 0

/-- An article at which the `get_part_details_node` scan stops (given
detail payloads `d`): its name matches `part_name` case-insensitively after
stripping, it has a truthy `articleId`, and its details carry at least one
truthy OEM display number. -/
def detailYields (d : Int → ArticleDetails) (part_name : String) (a : Article) : Prop :=
  pyLower (pyStrip (a.articleProductName.getD "")) = pyLower (pyStrip part_name) ∧
  ∃ id, a.articleId = some id ∧ id ≠ 0 ∧ displayNums (d id) ≠ []

/-- A concrete prompts fixture for witnesses. -/
def okPrompts : Prompts :=
  { system := "sys", invalid_category := "The category was invalid, pick another.",
    inferCategoryFmt := fun _ _ => "pick a category", matchPartFmt := fun _ _ => "pick a part" }

/-- A concrete oracle fixture for witnesses in which every catalog query
raises and every other call succeeds. -/
def failAllOracles : Oracles :=
  { inferPrompts := fun _ => .ok okPrompts
    inferLlm := fun _ =>
      .ok "<subcategory_id>100006</subcategory_id><category>Braking System</category>"
    partsPrompts := fun _ => .ok okPrompts
    api := fun _ => .error "connection timeout"
    matchPrompts := .ok okPrompts
    matchLlm := .ok "<replacement>Brake Pad</replacement>"
    fetch := fun _ => .ok {} }

theorem charListLt_asymm : ∀ x y : List Char, charListLt x y = true → charListLt y x = false := by
  intro x
  induction x with
  | nil =>
    intro y h
    cases y with
    | nil => simp [charListLt] at h
    | cons b bs => simp [charListLt]
  | cons a as ih =>
    intro y h
    cases y with
    | nil => simp [charListLt] at h
    | cons b bs =>
      simp only [charListLt] at h ⊢
      by_cases hab : a < b
      · have hba : ¬ b < a := lt_asymm hab
        simp [hab, hba]
      · by_cases hba : b < a
        · simp [hab, hba] at h
        · simp only [hab, hba, if_false] at h ⊢
          exact ih bs h

theorem charListLt_conn : ∀ x y : List Char,
    charListLt x y = false → charListLt y x = false → x = y := by
  intro x
  induction x with
  | nil =>
    intro y h _
    cases y with
    | nil => rfl
    | cons b bs => simp [charListLt] at h
  | cons a as ih =>
    intro y h h'
    cases y with
    | nil => simp [charListLt] at h'
    | cons b bs =>
      simp only [charListLt] at h h'
      by_cases hab : a < b
      · simp [hab] at h
      · by_cases hba : b < a
        · simp [hba, hab] at h'
        · simp only [hab, hba, if_false] at h h'
          have : a = b := le_antisymm (not_lt.mp hba) (not_lt.mp hab)
          rw [this, ih bs h h']

theorem charListLt_trans : ∀ x y z : List Char,
    charListLt x y = true → charListLt y z = true → charListLt x z = true := by
  intro x
  induction x with
  | nil =>
    intro y z h h'
    cases y with
    | nil => simp [charListLt] at h
    | cons b bs =>
      cases z with
      | nil => simp [charListLt] at h'
      | cons c cs => simp [charListLt]
  | cons a as ih =>
    intro y z h h'
    cases y with
    | nil => simp [charListLt] at h
    | cons b bs =>
      cases z with
      | nil => simp [charListLt] at h'
      | cons c cs =>
        simp only [charListLt] at h h' ⊢
        by_cases hab : a < b
        · by_cases hbc : b < c
          · simp [lt_trans hab hbc]
          · by_cases hcb : c < b
            · simp [hab, hbc, hcb] at h'
            · have : b = c := le_antisymm (not_lt.mp hcb) (not_lt.mp hbc)
              subst this
              simp [hab]
        · by_cases hba : b < a
          · simp [hab, hba] at h
          · have hab' : a = b := le_antisymm (not_lt.mp hba) (not_lt.mp hab)
            subst hab'
            simp only [hab, if_false] at h
            by_cases hac : a < c
            · simp [hac]
            · by_cases hca : c < a
              · simp [hac, hca] at h'
              · simp only [hac, hca, if_false] at h' ⊢
                exact ih bs cs h h'

theorem pyStrLe_total : ∀ a b : String, pyStrLe a b = true ∨ pyStrLe b a = true := by
  intro a b
  cases hc : charListLt b.data a.data with
  | false => left; simp [pyStrLe, hc]
  | true => right; simp [pyStrLe, charListLt_asymm _ _ hc]

theorem pyStrLe_trans : ∀ a b c : String,
    pyStrLe a b = true → pyStrLe b c = true → pyStrLe a c = true := by
  intro a b c hab hbc
  simp only [pyStrLe, Bool.not_eq_true'] at hab hbc ⊢
  cases hca : charListLt c.data a.data with
  | false => rfl
  | true =>
    cases hab' : charListLt a.data b.data with
    | true =>
      have := charListLt_trans _ _ _ hca hab'
      rw [this] at hbc
      exact absurd hbc (by simp)
    | false =>
      have : a.data = b.data := charListLt_conn _ _ hab' hab
      rw [this] at hca
      rw [hca] at hbc
      exact absurd hbc (by simp)

theorem truthyName_eq_some (a : Article) (s : String) :
    truthyName a = some s ↔ a.articleProductName = some s ∧ s ≠ "" := by
  unfold truthyName
  cases h : a.articleProductName with
  | none => simp
  | some t =>
    by_cases ht : t = ""
    · subst ht
      simp only [if_pos rfl]
      constructor
      · intro hf; exact absurd hf (by simp)
      · rintro ⟨hst, hne⟩
        exact absurd hst.symm (by simpa using hne)
    · simp only [if_neg ht, Option.some.injEq]
      constructor
      · rintro rfl; exact ⟨rfl, ht⟩
      · rintro ⟨hst, _⟩; exact hst

/-- Claim C8: for every response string and tag name, `_parse_xml_tag`
returns the whitespace-stripped text between the first `<tag>` and the next
`</tag>` (the rest of the string when the closing tag is absent), and raises
`ValueError` exactly when that extracted text is empty — both when the tag
is absent and when the tag pair encloses no content — while tolerating a
missing closing tag. -/
theorem C8_parseXmlTag_spec :
    (∀ response tag : String,
      (rawTagContent response tag = "" →
        parseXmlTag response tag =
          .error ("Tag " ++ ("<" ++ tag ++ ">") ++ " not found in response")) ∧
      (rawTagContent response tag ≠ "" →
        parseXmlTag response tag = .ok (pyStrip (rawTagContent response tag)))) ∧
    parseXmlTag "say <x>yes" "x" = .ok "yes" ∧
    parseXmlTag "say yes" "x" = .error "Tag <x> not found in response" ∧
    parseXmlTag "say <x></x> now" "x" = .error "Tag <x> not found in response" ∧
    parseXmlTag "say <x> yes </x> now" "x" = .ok "yes" := by
  refine ⟨?_, rfl, rfl, rfl, rfl⟩
  intro response tag
  unfold parseXmlTag rawTagContent
  constructor
  · intro h
    rw [if_pos h]
  · intro h
    rw [if_neg h]

/-- Witness for C8 at a concrete response: the tag is absent, the raw
content is empty, and the parser raises. -/
theorem C8_parseXmlTag_spec_witness :
    rawTagContent "say yes" "x" = "" ∧
    parseXmlTag "say yes" "x" =
      .error ("Tag " ++ ("<" ++ "x" ++ ">") ++ " not found in response") :=
  ⟨rfl, (C8_parseXmlTag_spec.1 "say yes" "x").1 rfl⟩

/-- Claim C9: `_extract_parts` returns a duplicate-free, ascending-sorted
list of exactly those `articleProductName` values that are present and
non-empty; distinctness is by exact (case-sensitive) string equality, so
two entries whose names differ only in letter case yield two distinct
candidates for the single-article optimization. -/
theorem C9_extractParts_spec :
    (∀ l : List Article,
      (extractParts l).Nodup ∧
      List.Sorted (fun a b => pyStrLe a b = true) (extractParts l) ∧
      (∀ s, s ∈ extractParts l ↔ ∃ a ∈ l, a.articleProductName = some s ∧ s ≠ "")) ∧
    extractParts [⟨some "Brake Pad", none⟩, ⟨some "brake pad", none⟩] =
      ["Brake Pad", "brake pad"] := by
  constructor
  · intro l
    haveI : IsTotal String (fun a b => pyStrLe a b = true) := ⟨pyStrLe_total⟩
    haveI : IsTrans String (fun a b => pyStrLe a b = true) := ⟨pyStrLe_trans⟩
    unfold extractParts
    by_cases hl : l = []
    · subst hl
      simp [List.Sorted]
    · simp only [if_neg hl]
      unfold pySorted
      refine ⟨?_, ?_, ?_⟩
      · exact ((List.perm_insertionSort _ _).nodup_iff).mpr (List.nodup_dedup _)
      · exact List.sorted_insertionSort _ _
      · intro s
        rw [(List.perm_insertionSort _ _).mem_iff, List.mem_dedup, List.mem_filterMap]
        constructor
        · rintro ⟨a, ha, ht⟩
          exact ⟨a, ha, (truthyName_eq_some a s).mp ht⟩
        · rintro ⟨a, ha, hp⟩
          exact ⟨a, ha, (truthyName_eq_some a s).mpr hp⟩
  · rfl

theorem matchPartRun_nil (prompts : Except String Prompts) (llm : Except String String)
    (st : AgentState) (h : extractParts st.parts_list = []) :
    matchPartRun prompts llm st =
      (.ok { st with result := some { status := "NO_MATCH", message := "No parts found in the category" }
                     error := "" }, 0) := by
  unfold matchPartRun
  rw [h]

theorem matchPartRun_single (prompts : Except String Prompts) (llm : Except String String)
    (st : AgentState) (only : String) (h : extractParts st.parts_list = [only]) :
    matchPartRun prompts llm st =
      (.ok { st with result := some { status := "SUCCESS", part_name := only, category_id := st.category_id }
                     error := "" }, 0) := by
  unfold matchPartRun
  rw [h]

theorem matchPartRun_multi_parse_err (p : Prompts) (r : String) (st : AgentState)
    (u v : String) (rest : List String) (e : String)
    (h : extractParts st.parts_list = u :: v :: rest)
    (hparse : parseXmlTag r "replacement" = .error e) :
    matchPartRun (.ok p) (.ok r) st = (.error e, 1) := by
  unfold matchPartRun
  rw [h]
  dsimp only
  rw [hparse]

theorem matchPartRun_multi_parse_ok (p : Prompts) (r : String) (st : AgentState)
    (u v : String) (rest : List String) (a : String)
    (h : extractParts st.parts_list = u :: v :: rest)
    (hparse : parseXmlTag r "replacement" = .ok a) :
    matchPartRun (.ok p) (.ok r) st =
      (if a = "" then
        (.ok { st with result := some { status := "NO_MATCH", message := "No suitable part found in the category" }
                       error := "" }, 1)
      else if ((u :: v :: rest).map pyLower).contains (pyLower (pyStrip a)) then
        (.ok { st with result := some { status := "SUCCESS", part_name := pyStrip a,
                                        category_id := st.category_id }
                       error := "" }, 1)
      else
        (.ok { st with result := some { status := "NO_MATCH", message := "No suitable part found in the category" }
                       error := "" }, 1)) := by
  unfold matchPartRun
  rw [h]
  dsimp only
  rw [hparse]

/-- Claim C3: whenever the parts list holds exactly one distinct article
product name, `match_part_node` accepts it directly as a `SUCCESS` result
and performs no model call. -/
theorem C3_single_candidate_skips_model :
    ∀ (prompts : Except String Prompts) (llm : Except String String)
      (st : AgentState) (name : String),
      extractParts st.parts_list = [name] →
      matchPartNode prompts llm st =
        .ok { st with result := some { status := "SUCCESS", part_name := name,
                                       category_id := st.category_id }
                      error := "" } ∧
      matchPartLLMCalls prompts llm st = 0 := by
  intro prompts llm st name h
  have hrun := matchPartRun_single prompts llm st name h
  constructor
  · unfold matchPartNode
    rw [hrun]
  · unfold matchPartLLMCalls
    rw [hrun]

/-- Witness for C3: a parts list whose two entries share one distinct name
is accepted directly with zero model calls, even though both oracles would
fail if consulted. -/
theorem C3_single_candidate_skips_model_witness :
    matchPartNode (.error "prompts unavailable") (.error "llm unavailable")
        { parts_list := [⟨some "Oil Filter", some 5⟩, ⟨some "Oil Filter", some 7⟩],
          category_id := "100006" } =
      .ok { ({ parts_list := [⟨some "Oil Filter", some 5⟩, ⟨some "Oil Filter", some 7⟩],
               category_id := "100006" } : AgentState) with
            result := some { status := "SUCCESS", part_name := "Oil Filter",
                             category_id := "100006" }
            error := "" } ∧
    matchPartLLMCalls (.error "prompts unavailable") (.error "llm unavailable")
        { parts_list := [⟨some "Oil Filter", some 5⟩, ⟨some "Oil Filter", some 7⟩],
          category_id := "100006" } = 0 :=
  C3_single_candidate_skips_model (.error "prompts unavailable") (.error "llm unavailable")
    { parts_list := [⟨some "Oil Filter", some 5⟩, ⟨some "Oil Filter", some 7⟩],
      category_id := "100006" } "Oil Filter" rfl


/-- Claim C4: a model disambiguation answer that is empty or not
case-insensitively present among the distinct candidates yields a
`NO_MATCH` result, and a `SUCCESS` result's `part_name` is always
case-insensitively present among the candidates — never a fabricated
match. -/
theorem C4_no_fabricated_match :
    (∀ (p : Prompts) (r a : String) (st : AgentState) (u v : String) (rest : List String),
      extractParts st.parts_list = u :: v :: rest →
      parseXmlTag r "replacement" = .ok a →
      (a = "" ∨ ((u :: v :: rest).map pyLower).contains (pyLower (pyStrip a)) = false) →
      matchPartNode (.ok p) (.ok r) st =
        .ok { st with result := some { status := "NO_MATCH",
                                       message := "No suitable part found in the category" }
                      error := "" }) ∧
    (∀ (prompts : Except String Prompts) (llm : Except String String)
       (st s' : AgentState) (res : PartResult),
      matchPartNode prompts llm st = .ok s' →
      s'.result = some res →
      res.status = "SUCCESS" →
      ((extractParts st.parts_list).map pyLower).contains (pyLower res.part_name) = true) := by
  constructor
  · intro p r a st u v rest hu hparse hbad
    have hrun := matchPartRun_multi_parse_ok p r st u v rest a hu hparse
    by_cases hempty : a = ""
    · rw [if_pos hempty] at hrun
      unfold matchPartNode
      rw [hrun]
    · have hnotin : ¬ ((u :: v :: rest).map pyLower).contains (pyLower (pyStrip a)) = true := by
        rcases hbad with hb | hb
        · exact absurd hb hempty
        · intro hc
          rw [hb] at hc
          exact Bool.noConfusion hc
      rw [if_neg hempty, if_neg hnotin] at hrun
      unfold matchPartNode
      rw [hrun]
  · intro prompts llm st s' res hnode hres hstat
    cases hu : extractParts st.parts_list with
    | nil =>
      have hX : matchPartNode prompts llm st =
          .ok { st with result := some { status := "NO_MATCH", message := "No parts found in the category" }
                        error := "" } := by
        unfold matchPartNode
        rw [matchPartRun_nil prompts llm st hu]
      have hXs := hX.symm.trans hnode
      injection hXs with hXs'
      subst hXs'
      injection hres with hres'
      subst hres'
      simp at hstat
    | cons u tail =>
      cases tail with
      | nil =>
        have hX : matchPartNode prompts llm st =
            .ok { st with result := some { status := "SUCCESS", part_name := u,
                                           category_id := st.category_id }
                          error := "" } := by
          unfold matchPartNode
          rw [matchPartRun_single prompts llm st u hu]
        have hXs := hX.symm.trans hnode
        injection hXs with hXs'
        subst hXs'
        injection hres with hres'
        subst hres'
        simp [List.contains]
      | cons v rest =>
        cases prompts with
        | error e =>
          have hX : matchPartNode (.error e) llm st =
              .ok { st with result := some { status := "ERROR", message := "Part matching failed: " ++ e }
                            error := "Part matching failed: " ++ e } := by
            unfold matchPartNode matchPartRun
            rw [hu]
          have hXs := hX.symm.trans hnode
          injection hXs with hXs'
          subst hXs'
          injection hres with hres'
          subst hres'
          simp at hstat
        | ok p =>
          cases llm with
          | error e =>
            have hX : matchPartNode (.ok p) (.error e) st =
                .ok { st with result := some { status := "ERROR", message := "Part matching failed: " ++ e }
                              error := "Part matching failed: " ++ e } := by
              unfold matchPartNode matchPartRun
              rw [hu]
            have hXs := hX.symm.trans hnode
            injection hXs with hXs'
            subst hXs'
            injection hres with hres'
            subst hres'
            simp at hstat
          | ok r =>
            cases hparse : parseXmlTag r "replacement" with
            | error e =>
              have hX : matchPartNode (.ok p) (.ok r) st =
                  .ok { st with result := some { status := "ERROR", message := "Part matching failed: " ++ e }
                                error := "Part matching failed: " ++ e } := by
                unfold matchPartNode
                rw [matchPartRun_multi_parse_err p r st u v rest e hu hparse]
              have hXs := hX.symm.trans hnode
              injection hXs with hXs'
              subst hXs'
              injection hres with hres'
              subst hres'
              simp at hstat
            | ok a =>
              have hrun := matchPartRun_multi_parse_ok p r st u v rest a hu hparse
              by_cases hempty : a = ""
              · rw [if_pos hempty] at hrun
                have hX : matchPartNode (.ok p) (.ok r) st =
                    .ok { st with result := some { status := "NO_MATCH",
                                                   message := "No suitable part found in the category" }
                                  error := "" } := by
                  unfold matchPartNode
                  rw [hrun]
                have hXs := hX.symm.trans hnode
                injection hXs with hXs'
                subst hXs'
                injection hres with hres'
                subst hres'
                simp at hstat
              · by_cases hmem : ((u :: v :: rest).map pyLower).contains (pyLower (pyStrip a)) = true
                · rw [if_neg hempty, if_pos hmem] at hrun
                  have hX : matchPartNode (.ok p) (.ok r) st =
                      .ok { st with result := some { status := "SUCCESS", part_name := pyStrip a,
                                                     category_id := st.category_id }
                                    error := "" } := by
                    unfold matchPartNode
                    rw [hrun]
                  have hXs := hX.symm.trans hnode
                  injection hXs with hXs'
                  subst hXs'
                  injection hres with hres'
                  subst hres'
                  exact hmem
                · rw [if_neg hempty, if_neg hmem] at hrun
                  have hX : matchPartNode (.ok p) (.ok r) st =
                      .ok { st with result := some { status := "NO_MATCH",
                                                     message := "No suitable part found in the category" }
                                    error := "" } := by
                    unfold matchPartNode
                    rw [hrun]
                  have hXs := hX.symm.trans hnode
                  injection hXs with hXs'
                  subst hXs'
                  injection hres with hres'
                  subst hres'
                  simp at hstat

/-- Witness for C4: with two distinct candidates, the concrete answer
`<replacement>Spark Plug</replacement>` names a part outside the candidate
set, and the node yields `NO_MATCH`. -/
theorem C4_no_fabricated_match_witness :
    matchPartNode (.ok { system := "", invalid_category := "",
                         inferCategoryFmt := fun _ _ => "", matchPartFmt := fun _ _ => "" })
        (.ok "<replacement>Spark Plug</replacement>")
        { parts_list := [⟨some "Brake Disc", some 1⟩, ⟨some "Brake Pad", some 2⟩] } =
      .ok { ({ parts_list := [⟨some "Brake Disc", some 1⟩, ⟨some "Brake Pad", some 2⟩] } : AgentState) with
            result := some { status := "NO_MATCH",
                             message := "No suitable part found in the category" }
            error := "" } :=
  C4_no_fabricated_match.1
    { system := "", invalid_category := "", inferCategoryFmt := fun _ _ => "",
      matchPartFmt := fun _ _ => "" }
    "<replacement>Spark Plug</replacement>" "Spark Plug"
    { parts_list := [⟨some "Brake Disc", some 1⟩, ⟨some "Brake Pad", some 2⟩] }
    "Brake Disc" "Brake Pad" [] rfl rfl (Or.inr rfl)

/-- Counterexample to C10 as stated: a body whose `country_filter_id` is the
integer 0 but whose `vehicle_id` is a truthy non-integer is rejected with
status 400, yet with the type error for `vehicle_id`, not with a
'Missing required field' error. -/
theorem C10_counterexample :
    lambdaHandler { vehicle_id := some (.str "abc"), country_filter_id := some (.int 0),
                    categories := some (.obj 1), parts := some (.arr 1) }
        (.otherError "unused") =
      { statusCode := 400, error := some "Field \"vehicle_id\" must be an integer" } ∧
    some "Field \"vehicle_id\" must be an integer" ≠ some "Missing required field: vehicle_id" ∧
    some "Field \"vehicle_id\" must be an integer" ≠
      some "Missing required field: country_filter_id" :=
  ⟨rfl, by decide, by decide⟩

/-- Claim C10 (amended): a body with `vehicle_id = 0` is rejected 400 with
'Missing required field: vehicle_id'; a body with `country_filter_id = 0`
whose `vehicle_id` passes its checks is rejected 400 with
'Missing required field: country_filter_id'; and whenever either field is
the integer 0 the handler answers 400 without invoking the batch search
(the response is independent of the search outcome). -/
theorem C10_zero_id_rejected :
    (∀ (body : RequestBody) (m : MainOutcome),
      body.vehicle_id = some (.int 0) →
      lambdaHandler body m =
        { statusCode := 400, error := some "Missing required field: vehicle_id" }) ∧
    (∀ (body : RequestBody) (m : MainOutcome),
      body.country_filter_id = some (.int 0) →
      pyTruthy body.vehicle_id = true →
      (body.vehicle_id.getD (.int 0)).isInt = true →
      lambdaHandler body m =
        { statusCode := 400, error := some "Missing required field: country_filter_id" }) ∧
    (∀ (body : RequestBody) (m m' : MainOutcome),
      (body.vehicle_id = some (.int 0) ∨ body.country_filter_id = some (.int 0)) →
      (lambdaHandler body m).statusCode = 400 ∧ lambdaHandler body m = lambdaHandler body m') := by
  refine ⟨?_, ?_, ?_⟩
  · intro body m h0
    have hv : pyTruthy body.vehicle_id = false := by rw [h0]; rfl
    simp [lambdaHandler, hv]
  · intro body m h0 hvt hvi
    have hc : pyTruthy body.country_filter_id = false := by rw [h0]; rfl
    simp [lambdaHandler, hvt, hvi, hc]
  · intro body m m' h
    rcases h with h0 | h0
    · have hv : pyTruthy body.vehicle_id = false := by rw [h0]; rfl
      exact ⟨by simp [lambdaHandler, hv], by simp [lambdaHandler, hv]⟩
    · by_cases hvt : pyTruthy body.vehicle_id = true
      · by_cases hvi : (body.vehicle_id.getD (.int 0)).isInt = true
        · have hc : pyTruthy body.country_filter_id = false := by rw [h0]; rfl
          exact ⟨by simp [lambdaHandler, hvt, hvi, hc], by simp [lambdaHandler, hvt, hvi, hc]⟩
        · exact ⟨by simp [lambdaHandler, hvt, hvi], by simp [lambdaHandler, hvt, hvi]⟩
      · exact ⟨by simp [lambdaHandler, hvt], by simp [lambdaHandler, hvt]⟩

/-- Witness for C10 (amended) at concrete bodies: a zero `vehicle_id` and a
zero `country_filter_id` each produce the missing-field rejection. -/
theorem C10_zero_id_rejected_witness :
    lambdaHandler { vehicle_id := some (.int 0), country_filter_id := some (.int 1),
                    categories := some (.obj 1), parts := some (.arr 1) } (.ok []) =
      { statusCode := 400, error := some "Missing required field: vehicle_id" } ∧
    lambdaHandler { vehicle_id := some (.int 19942), country_filter_id := some (.int 0),
                    categories := some (.obj 1), parts := some (.arr 1) } (.ok []) =
      { statusCode := 400, error := some "Missing required field: country_filter_id" } :=
  ⟨C10_zero_id_rejected.1 _ _ rfl, C10_zero_id_rejected.2.1 _ _ rfl rfl rfl⟩

theorem searchSinglePart_pd (r : Except String WorkflowResult) (pd : String) :
    (searchSinglePart r pd).part_description = pd := by
  cases r <;> rfl

/-- Counterexample to C5 as stated: for the empty list of part descriptions
(`N = 0`), `main` raises `ValueError` instead of returning 0 result
records. -/
theorem C5_counterexample :
    mainBatch [] (fun _ => .error "boom") (Equiv.refl _) =
      .error "parts_to_search cannot be empty" ∧
    (mainBatch [] (fun _ => .error "boom") (Equiv.refl _)).isOk = false :=
  ⟨rfl, rfl⟩

/-- Claim C5 (amended): for every non-empty list of N part descriptions,
`main` returns exactly N result records — the j-th collected record being
the converted outcome of the search the pool completed j-th — each carrying
its own `part_description`, with every input represented exactly once
(completion order is a permutation), and each per-item exception converted
into a structured `ERROR` record rather than aborting the batch. -/
theorem C5_batch_complete :
    ∀ (inputs : List String) (search : Nat → Except String WorkflowResult)
      (σ : Equiv.Perm (Fin inputs.length)),
      inputs ≠ [] →
      ∃ rs, mainBatch inputs search σ = .ok rs ∧
        rs.length = inputs.length ∧
        (∀ j : Fin inputs.length, ∃ hj : j.val < rs.length,
          rs.get ⟨j.val, hj⟩ = searchSinglePart (search (σ j).val) (inputs.get (σ j)) ∧
          (rs.get ⟨j.val, hj⟩).part_description = inputs.get (σ j) ∧
          ∀ e, search (σ j).val = .error e →
            (rs.get ⟨j.val, hj⟩).res.status = "ERROR" ∧
            (rs.get ⟨j.val, hj⟩).res.message = "Part search failed: " ++ e) ∧
        (∀ i : Fin inputs.length, ∃ j : Fin inputs.length, σ j = i ∧
          ∃ hj : j.val < rs.length, (rs.get ⟨j.val, hj⟩).part_description = inputs.get i) := by
  intro inputs search σ hne
  refine ⟨List.ofFn fun j => searchSinglePart (search (σ j).val) (inputs.get (σ j)), ?_, ?_, ?_, ?_⟩
  · unfold mainBatch
    rw [if_neg hne]
  · simp
  · intro j
    have hj : j.val < (List.ofFn fun j => searchSinglePart (search (σ j).val) (inputs.get (σ j))).length := by
      simp [j.isLt]
    refine ⟨hj, ?_⟩
    have hget : (List.ofFn fun j => searchSinglePart (search (σ j).val) (inputs.get (σ j))).get ⟨j.val, hj⟩ =
        searchSinglePart (search (σ j).val) (inputs.get (σ j)) := by
      rw [List.get_ofFn]
      congr 1
    refine ⟨hget, by rw [hget]; exact searchSinglePart_pd _ _, ?_⟩
    intro e he
    rw [hget]
    unfold searchSinglePart
    rw [he]
    exact ⟨rfl, rfl⟩
  · intro i
    refine ⟨σ.symm i, σ.apply_symm_apply i, ?_⟩
    have hj : (σ.symm i).val < (List.ofFn fun j => searchSinglePart (search (σ j).val) (inputs.get (σ j))).length := by
      simp [(σ.symm i).isLt]
    refine ⟨hj, ?_⟩
    have hget : (List.ofFn fun j => searchSinglePart (search (σ j).val) (inputs.get (σ j))).get ⟨(σ.symm i).val, hj⟩ =
        searchSinglePart (search (σ (σ.symm i)).val) (inputs.get (σ (σ.symm i))) := by
      rw [List.get_ofFn]
      congr 1
    rw [hget, searchSinglePart_pd, σ.apply_symm_apply]

/-- Witness for C5 (amended) at a concrete two-element batch in which the
second search raises: the batch still returns a record list. -/
theorem C5_batch_complete_witness :
    (mainBatch ["brake pad", "air filter"]
        (fun i => if i = 0 then .ok {} else .error "boom") (Equiv.refl _)).isOk = true := by
  obtain ⟨rs, h1, _, _, _⟩ :=
    C5_batch_complete ["brake pad", "air filter"]
      (fun i => if i = 0 then .ok {} else .error "boom") (Equiv.refl _) (by decide)
  rw [h1]
  rfl

/-- Counterexample to C6 as stated: when the catalog request raises and the
`except` handler's own `_load_prompts()` call fails, `get_parts_list_node`
re-raises the prompts-loading error to its caller instead of absorbing it. -/
theorem C6_counterexample :
    getPartsListNode "a-key" (.error "Failed to load prompts: file missing")
        (.error "connection timeout")
        { vehicle_id := 19942, category_id := "100006" } =
      .error "Failed to load prompts: file missing" ∧
    (getPartsListNode "a-key" (.error "Failed to load prompts: file missing")
        (.error "connection timeout")
        { vehicle_id := 19942, category_id := "100006" }).isOk = false :=
  ⟨rfl, rfl⟩

/-- Claim C6 (amended): every exception arising inside a node's `try:` block
is caught and recorded in the returned state's error/result fields;
`infer_category_node`, `match_part_node` and `get_part_details_node` never
raise, and `get_parts_list_node` never raises provided its prompts file
loads (its handler reloads the prompts and re-raises on that one
failure). -/
theorem C6_nodes_absorb_failures :
    (∀ (p : Except String Prompts) (l : Except String String) (st : AgentState),
      ∃ s', inferCategoryNode p l st = .ok s') ∧
    (∀ (p : Except String Prompts) (l : Except String String) (st : AgentState) (e : String),
      inferCategoryBody p l st = .error e →
      inferCategoryNode p l st = .ok { st with error := "Category inference failed: " ++ e }) ∧
    (∀ (p : Except String Prompts) (l : Except String String) (st : AgentState),
      ∃ s', matchPartNode p l st = .ok s') ∧
    (∀ (p : Except String Prompts) (l : Except String String) (st : AgentState) (e : String),
      (matchPartRun p l st).1 = .error e →
      matchPartNode p l st =
        .ok { st with result := some { status := "ERROR", message := "Part matching failed: " ++ e }
                      error := "Part matching failed: " ++ e }) ∧
    (∀ (key : String) (f : Int → Except String ArticleDetails) (st : AgentState),
      ∃ s', getPartDetailsNode key f st = .ok s') ∧
    (∀ (key : String) (f : Int → Except String ArticleDetails) (st : AgentState) (e : String),
      getPartDetailsBody key f st = .error e →
      getPartDetailsNode key f st =
        .ok { st with oem_numbers := [], s3image_uri := "",
                      error := "Failed to get part details: " ++ e }) ∧
    (∀ (key : String) (p : Prompts) (api : Except String CatalogResp) (st : AgentState),
      ∃ s', getPartsListNode key (.ok p) api st = .ok s') ∧
    (∀ (key : String) (p : Prompts) (api : Except String CatalogResp) (st : AgentState) (e : String),
      getPartsListBody key (.ok p) api st = .error e →
      getPartsListNode key (.ok p) api st =
        .ok { st with chat_history := st.chat_history ++ [⟨"user", p.invalid_category⟩]
                      retry_count := st.retry_count + 1
                      error := "API_ERROR" }) := by
  refine ⟨?_, ?_, ?_, ?_, ?_, ?_, ?_, ?_⟩
  · intro p l st
    cases h : inferCategoryBody p l st with
    | ok s => exact ⟨s, by unfold inferCategoryNode; rw [h]⟩
    | error e => exact ⟨_, by unfold inferCategoryNode; rw [h]⟩
  · intro p l st e h
    unfold inferCategoryNode
    rw [h]
  · intro p l st
    cases h : (matchPartRun p l st).1 with
    | ok s => exact ⟨s, by unfold matchPartNode; rw [h]⟩
    | error e => exact ⟨_, by unfold matchPartNode; rw [h]⟩
  · intro p l st e h
    unfold matchPartNode
    rw [h]
  · intro key f st
    cases h : getPartDetailsBody key f st with
    | ok s => exact ⟨s, by unfold getPartDetailsNode; rw [h]⟩
    | error e => exact ⟨_, by unfold getPartDetailsNode; rw [h]⟩
  · intro key f st e h
    unfold getPartDetailsNode
    rw [h]
  · intro key p api st
    cases h : getPartsListBody key (.ok p) api st with
    | ok s => exact ⟨s, by unfold getPartsListNode; rw [h]⟩
    | error e => exact ⟨_, by unfold getPartsListNode; rw [h]⟩
  · intro key p api st e h
    unfold getPartsListNode
    rw [h]

/-- Witness for C6 (amended): with the prompts file loading and the catalog
request raising, the parts node absorbs the failure into an `API_ERROR`
state. -/
theorem C6_nodes_absorb_failures_witness :
    getPartsListNode "a-key"
        (.ok { system := "s", invalid_category := "invalid category, try again",
               inferCategoryFmt := fun _ _ => "", matchPartFmt := fun _ _ => "" })
        (.error "connection timeout") { vehicle_id := 19942, category_id := "100006" } =
      .ok { ({ vehicle_id := 19942, category_id := "100006" } : AgentState) with
            chat_history := [] ++ [⟨"user", "invalid category, try again"⟩]
            retry_count := 0 + 1
            error := "API_ERROR" } :=
  C6_nodes_absorb_failures.2.2.2.2.2.2.2 "a-key"
    { system := "s", invalid_category := "invalid category, try again",
      inferCategoryFmt := fun _ _ => "", matchPartFmt := fun _ _ => "" }
    (.error "connection timeout") { vehicle_id := 19942, category_id := "100006" }
    "connection timeout" rfl

theorem detailScan_skip_one (d : Int → ArticleDetails) (st : AgentState) (pn : String)
    (b : Article) (l : List Article) (hb : ¬ detailYields d pn b) :
    detailScan (fun i => .ok (d i)) st pn (b :: l) = detailScan (fun i => .ok (d i)) st pn l := by
  by_cases hname : pyLower (pyStrip (b.articleProductName.getD "")) = pyLower (pyStrip pn)
  · cases hid : b.articleId with
    | none => simp [detailScan, hname, hid]
    | some id =>
      by_cases hid0 : id = 0
      · simp [detailScan, hname, hid, hid0]
      · have hdn : displayNums (d id) = [] := by
          by_contra hdn
          exact hb ⟨hname, id, hid, hid0, hdn⟩
        by_cases hoem : (d id).oemNo = []
        · simp [detailScan, hname, hid, hid0, hoem]
        · simp [detailScan, hname, hid, hid0, hoem, hdn]
  · simp [detailScan, hname]

theorem detailScan_none (d : Int → ArticleDetails) (st : AgentState) (pn : String) :
    ∀ l : List Article, (∀ b ∈ l, ¬ detailYields d pn b) →
      detailScan (fun i => .ok (d i)) st pn l =
        .ok { st with oem_numbers := [], s3image_uri := "", error := "" } := by
  intro l
  induction l with
  | nil => intro _; rfl
  | cons b l ih =>
    intro h
    rw [detailScan_skip_one d st pn b l (h b (List.mem_cons_self b l))]
    exact ih fun x hx => h x (List.mem_cons_of_mem b hx)

theorem detailScan_first (d : Int → ArticleDetails) (st : AgentState) (pn : String)
    (a : Article) (post : List Article) :
    ∀ pre : List Article, (∀ b ∈ pre, ¬ detailYields d pn b) → detailYields d pn a →
      ∃ id, a.articleId = some id ∧
        detailScan (fun i => .ok (d i)) st pn (pre ++ a :: post) =
          .ok { st with oem_numbers := displayNums (d id), s3image_uri := (d id).s3image,
                        error := "" } := by
  intro pre
  induction pre with
  | nil =>
    intro _ hy
    obtain ⟨hname, id, hid, hid0, hdn⟩ := hy
    refine ⟨id, hid, ?_⟩
    have hoem : (d id).oemNo ≠ [] := by
      intro hz
      apply hdn
      unfold displayNums
      rw [hz]
      rfl
    simp [detailScan, hname, hid, hid0, hoem, hdn]
  | cons b pre ih =>
    intro h hy
    obtain ⟨id, hid, heq⟩ := ih (fun x hx => h x (List.mem_cons_of_mem b hx)) hy
    refine ⟨id, hid, ?_⟩
    rw [List.cons_append, detailScan_skip_one d st pn b (pre ++ a :: post)
          (h b (List.mem_cons_self b pre))]
    exact heq

/-- Claim C7: with a usable key, an accepted part name and a country filter,
`get_part_details_node` scans the catalog entries in order for entries whose
name matches the accepted `part_name` case-insensitively ignoring
surrounding whitespace, and returns the truthy OEM display numbers and
image URI of the first such entry (with a truthy article id) whose detail
record yields a non-empty display-number list; when no entry yields any, it
returns empty `oem_numbers` and `s3image_uri` with no error. -/
theorem C7_detail_first_usable :
    ∀ (key : String) (d : Int → ArticleDetails) (st : AgentState),
      key ≠ "" → partNameOf st ≠ "" → st.country_filter_id ≠ 0 →
      (∀ pre a post, st.parts_list = pre ++ a :: post →
        (∀ b ∈ pre, ¬ detailYields d (partNameOf st) b) →
        detailYields d (partNameOf st) a →
        ∃ id, a.articleId = some id ∧
          getPartDetailsNode key (fun i => .ok (d i)) st =
            .ok { st with oem_numbers := displayNums (d id), s3image_uri := (d id).s3image,
                          error := "" }) ∧
      ((∀ b ∈ st.parts_list, ¬ detailYields d (partNameOf st) b) →
        getPartDetailsNode key (fun i => .ok (d i)) st =
          .ok { st with oem_numbers := [], s3image_uri := "", error := "" }) := by
  intro key d st hkey hpn hcf
  have hbody : ∀ X, detailScan (fun i => .ok (d i)) st (partNameOf st) st.parts_list = .ok X →
      getPartDetailsNode key (fun i => .ok (d i)) st = .ok X := by
    intro X hscan
    unfold getPartDetailsNode getPartDetailsBody
    rw [if_neg hkey, if_neg hpn, if_neg hcf, hscan]
  constructor
  · intro pre a post hsplit hpre hy
    obtain ⟨id, hid, heq⟩ := detailScan_first d st (partNameOf st) a post pre hpre hy
    rw [← hsplit] at heq
    exact ⟨id, hid, hbody _ heq⟩
  · intro hnone
    exact hbody _ (detailScan_none d st (partNameOf st) st.parts_list hnone)

/-- Witness for C7 at a concrete state: no catalog entry matches the
accepted name, so the node returns empty OEM numbers and image URI with no
error. -/
theorem C7_detail_first_usable_witness :
    getPartDetailsNode "a-key" (fun _ => .ok ({} : ArticleDetails))
        { parts_list := [⟨some "Air Filter", some 1⟩, ⟨some "Brake Pad", some 2⟩],
          result := some { status := "SUCCESS", part_name := "Coolant Hose" },
          country_filter_id := 1 } =
      .ok { ({ parts_list := [⟨some "Air Filter", some 1⟩, ⟨some "Brake Pad", some 2⟩],
               result := some { status := "SUCCESS", part_name := "Coolant Hose" },
               country_filter_id := 1 } : AgentState) with
            oem_numbers := [], s3image_uri := "", error := "" } :=
  (C7_detail_first_usable "a-key" (fun _ => ({} : ArticleDetails))
      { parts_list := [⟨some "Air Filter", some 1⟩, ⟨some "Brake Pad", some 2⟩],
        result := some { status := "SUCCESS", part_name := "Coolant Hose" },
        country_filter_id := 1 }
      (by decide) (by decide) (by decide)).2
    (by
      intro b hb hy
      rcases List.mem_cons.mp hb with rfl | hb2
      · exact absurd hy.1 (by decide)
      · rcases List.mem_cons.mp hb2 with rfl | hb3
        · exact absurd hy.1 (by decide)
        · cases hb3)

theorem inferCategoryNode_fields (p : Except String Prompts) (l : Except String String)
    (st : AgentState) :
    ∃ s', inferCategoryNode p l st = .ok s' ∧ s'.retry_count = st.retry_count ∧
      s'.result = st.result := by
  unfold inferCategoryNode inferCategoryBody
  cases p with
  | error e => exact ⟨_, rfl, rfl, rfl⟩
  | ok pp =>
    cases l with
    | error e => exact ⟨_, rfl, rfl, rfl⟩
    | ok r =>
      cases h1 : parseXmlTag r "subcategory_id" with
      | error e => simp only [h1]; exact ⟨_, rfl, rfl, rfl⟩
      | ok cid =>
        cases h2 : parseXmlTag r "category" with
        | error e => simp only [h1, h2]; exact ⟨_, rfl, rfl, rfl⟩
        | ok cname => simp only [h1, h2]; exact ⟨_, rfl, rfl, rfl⟩

theorem getPartsListNode_body_ok (key : String) (pp : Except String Prompts)
    (api : Except String CatalogResp) (st X : AgentState)
    (hb : getPartsListBody key pp api st = .ok X) :
    getPartsListNode key pp api st = .ok X := by
  unfold getPartsListNode
  rw [hb]

theorem partsNode_fail (key : String) (p : Prompts) (api : Except String CatalogResp)
    (st : AgentState) (ha : catalogFails api) :
    ∃ st', getPartsListNode key (.ok p) api st = .ok st' ∧
      (st'.error = "API_UNAVAILABLE" ∨ st'.error = "API_ERROR") ∧
      st'.retry_count = st.retry_count + 1 ∧ st'.result = st.result := by
  unfold getPartsListNode getPartsListBody
  by_cases hkey : key = ""
  · rw [if_pos hkey]
    exact ⟨_, rfl, Or.inr rfl, rfl, rfl⟩
  · rw [if_neg hkey]
    by_cases hveh : st.vehicle_id = 0
    · rw [if_pos hveh]
      exact ⟨_, rfl, Or.inr rfl, rfl, rfl⟩
    · rw [if_neg hveh]
      by_cases hcat : st.category_id = ""
      · rw [if_pos hcat]
        exact ⟨_, rfl, Or.inr rfl, rfl, rfl⟩
      · rw [if_neg hcat]
        cases api with
        | error e => exact ⟨_, rfl, Or.inr rfl, rfl, rfl⟩
        | ok resp =>
          have hempty : resp.articles = [] ∨ resp.countArticles = 0 := ha
          simp only [if_pos hempty]
          exact ⟨_, rfl, Or.inl rfl, rfl, rfl⟩

theorem getPartsListNode_ok_cases (key : String) (pp : Except String Prompts)
    (api : Except String CatalogResp) (st s' : AgentState)
    (h : getPartsListNode key pp api st = .ok s') :
    ((s'.error = "API_UNAVAILABLE" ∨ s'.error = "API_ERROR") ∧
      s'.retry_count = st.retry_count + 1 ∧ s'.result = st.result ∧
      ∃ m, s'.chat_history = st.chat_history ++ [m]) ∨
    (s'.error = "" ∧ s'.retry_count = st.retry_count ∧ s'.result = st.result) := by
  unfold getPartsListNode getPartsListBody at h
  by_cases hkey : key = ""
  · rw [if_pos hkey] at h
    cases pp with
    | error e => exact absurd h (by simp)
    | ok p =>
      injection h with h'
      subst h'
      exact Or.inl ⟨Or.inr rfl, rfl, rfl, _, rfl⟩
  · rw [if_neg hkey] at h
    by_cases hveh : st.vehicle_id = 0
    · rw [if_pos hveh] at h
      cases pp with
      | error e => exact absurd h (by simp)
      | ok p =>
        injection h with h'
        subst h'
        exact Or.inl ⟨Or.inr rfl, rfl, rfl, _, rfl⟩
    · rw [if_neg hveh] at h
      by_cases hcat : st.category_id = ""
      · rw [if_pos hcat] at h
        cases pp with
        | error e => exact absurd h (by simp)
        | ok p =>
          injection h with h'
          subst h'
          exact Or.inl ⟨Or.inr rfl, rfl, rfl, _, rfl⟩
      · rw [if_neg hcat] at h
        cases api with
        | error e =>
          cases pp with
          | error e2 => exact absurd h (by simp)
          | ok p =>
            injection h with h'
            subst h'
            exact Or.inl ⟨Or.inr rfl, rfl, rfl, _, rfl⟩
        | ok resp =>
          by_cases hempty : resp.articles = [] ∨ resp.countArticles = 0
          · simp only [if_pos hempty] at h
            cases pp with
            | error e => exact absurd h (by simp)
            | ok p =>
              injection h with h'
              subst h'
              exact Or.inl ⟨Or.inl rfl, rfl, rfl, _, rfl⟩
          · simp only [if_neg hempty] at h
            injection h with h'
            subst h'
            exact Or.inr ⟨rfl, rfl, rfl⟩

theorem shouldRetry_fail_lt (st : AgentState)
    (hf : st.error = "API_UNAVAILABLE" ∨ st.error = "API_ERROR")
    (hlt : st.retry_count < 3) : shouldRetry st = "infer_category" := by
  unfold shouldRetry
  rw [if_pos hf, if_neg (by omega)]

theorem shouldRetry_fail_ge (st : AgentState)
    (hf : st.error = "API_UNAVAILABLE" ∨ st.error = "API_ERROR")
    (hge : st.retry_count ≥ 3) : shouldRetry st = "end" := by
  unfold shouldRetry
  rw [if_pos hf, if_pos hge]

theorem shouldRetry_noerr (st : AgentState)
    (hne : ¬ (st.error = "API_UNAVAILABLE" ∨ st.error = "API_ERROR")) :
    shouldRetry st = "match_part" := by
  unfold shouldRetry
  rw [if_neg hne]

theorem loopRun_succ (key : String) (O : Oracles) (fuel i : Nat) (st : AgentState) :
    loopRun key O (fuel + 1) i st =
      (match inferCategoryNode (O.inferPrompts i) (O.inferLlm i) st with
       | .error e => some ⟨.error e, 0⟩
       | .ok st1 =>
         match getPartsListNode key (O.partsPrompts i) (O.api i) st1 with
         | .error e => some ⟨.error e, 1⟩
         | .ok st2 =>
           if shouldRetry st2 = "infer_category" then
             match loopRun key O fuel (i + 1) st2 with
             | none => none
             | some out => some ⟨out.final, out.partsCalls + 1⟩
           else if shouldRetry st2 = "match_part" then
             match matchPartNode O.matchPrompts O.matchLlm st2 with
             | .error e => some ⟨.error e, 1⟩
             | .ok st3 =>
               match getPartDetailsNode key O.fetch st3 with
               | .error e => some ⟨.error e, 1⟩
               | .ok st4 => some ⟨.ok st4, 1⟩
           else some ⟨.ok st2, 1⟩) := rfl

theorem loopRun_partsCalls_le (key : String) (O : Oracles) :
    ∀ (fuel i : Nat) (st : AgentState) (out : LoopOut),
      loopRun key O fuel i st = some out →
      out.partsCalls ≤ 3 - min 2 st.retry_count := by
  intro fuel
  induction fuel with
  | zero => intro i st out h; exact absurd h (by simp [loopRun])
  | succ fuel ih =>
    intro i st out h
    rw [loopRun_succ] at h
    obtain ⟨s1, h1, hrc1, _⟩ := inferCategoryNode_fields (O.inferPrompts i) (O.inferLlm i) st
    rw [h1] at h
    simp only at h
    cases hp : getPartsListNode key (O.partsPrompts i) (O.api i) s1 with
    | error e =>
      rw [hp] at h
      simp only at h
      injection h with h'
      subst h'
      simp
      omega
    | ok st2 =>
      rw [hp] at h
      simp only at h
      rcases getPartsListNode_ok_cases key (O.partsPrompts i) (O.api i) s1 st2 hp with
        ⟨hfail, hrc2, _, _⟩ | ⟨hok, hrc2, _⟩
      · by_cases hlt : st2.retry_count < 3
        · rw [shouldRetry_fail_lt st2 hfail hlt] at h
          rw [if_pos rfl] at h
          cases hrec : loopRun key O fuel (i + 1) st2 with
          | none => rw [hrec] at h; exact absurd h (by simp)
          | some out2 =>
            rw [hrec] at h
            injection h with h'
            subst h'
            have := ih (i + 1) st2 out2 hrec
            simp only
            omega
        · rw [shouldRetry_fail_ge st2 hfail (by omega)] at h
          rw [if_neg (by decide), if_neg (by decide)] at h
          injection h with h'
          subst h'
          simp only
          omega
      · have hne : ¬ (st2.error = "API_UNAVAILABLE" ∨ st2.error = "API_ERROR") := by
          rw [hok]; decide
        rw [shouldRetry_noerr st2 hne] at h
        rw [if_neg (by decide), if_pos rfl] at h
        cases hm : matchPartNode O.matchPrompts O.matchLlm st2 with
        | error e =>
          rw [hm] at h
          injection h with h'
          subst h'
          simp only
          omega
        | ok st3 =>
          rw [hm] at h
          simp only at h
          cases hd : getPartDetailsNode key O.fetch st3 with
          | error e =>
            rw [hd] at h
            injection h with h'
            subst h'
            simp only
            omega
          | ok st4 =>
            rw [hd] at h
            injection h with h'
            subst h'
            simp only
            omega

theorem loopRun_all_fail (key : String) (O : Oracles)
    (hpp : ∀ i, ∃ p, O.partsPrompts i = .ok p) (hapi : ∀ i, catalogFails (O.api i)) :
    ∀ (k : Nat), 0 < k → k ≤ 3 →
      ∀ (i : Nat) (st : AgentState), st.retry_count = 3 - k →
      ∀ fuel, k ≤ fuel →
      ∃ fs, loopRun key O fuel i st = some ⟨.ok fs, k⟩ ∧ fs.retry_count = 3 ∧
        fs.result = st.result := by
  intro k
  induction k with
  | zero => intro h; omega
  | succ k0 ih =>
    intro _ hk3 i st hrc fuel hfuel
    cases fuel with
    | zero => omega
    | succ f =>
      obtain ⟨p0, hp0⟩ := hpp i
      obtain ⟨s1, h1, hrc1, hres1⟩ := inferCategoryNode_fields (O.inferPrompts i) (O.inferLlm i) st
      obtain ⟨t1, hg1, herr1, hrcg, hresg⟩ := partsNode_fail key p0 (O.api i) s1 (hapi i)
      have hg1' : getPartsListNode key (O.partsPrompts i) (O.api i) s1 = .ok t1 := by
        rw [hp0]; exact hg1
      have hrct1 : t1.retry_count = 3 - (k0 + 1) + 1 := by omega
      cases k0 with
      | zero =>
        refine ⟨t1, ?_, by omega, by rw [hresg, hres1]⟩
        rw [loopRun_succ, h1]
        simp only
        rw [hg1']
        simp only
        rw [shouldRetry_fail_ge t1 herr1 (by omega)]
        rw [if_neg (by decide), if_neg (by decide)]
      | succ k1 =>
        obtain ⟨fs, hrec, hfs3, hfsres⟩ :=
          ih (by omega) (by omega) (i + 1) t1 (by omega) f (by omega)
        refine ⟨fs, ?_, hfs3, by rw [hfsres, hresg, hres1]⟩
        rw [loopRun_succ, h1]
        simp only
        rw [hg1']
        simp only
        rw [shouldRetry_fail_lt t1 herr1 (by omega)]
        rw [if_pos rfl, hrec]

/-- Claim C1: in every single-item workflow run, `get_parts_list_node`
executes at most 4 times in total (1 initial execution plus up to 3
retries), whatever the outcomes of the catalog queries — in particular for
every sequence of empty or failed catalog results. -/
theorem C1_catalog_query_bound :
    ∀ (key : String) (O : Oracles) (pd cats : String) (vid cfid : Int) (fuel : Nat)
      (out : LoopOut),
      loopRun key O fuel 0 (initState pd cats vid cfid) = some out →
      out.partsCalls ≤ 4 := by
  intro key O pd cats vid cfid fuel out h
  have hb := loopRun_partsCalls_le key O fuel 0 (initState pd cats vid cfid) out h
  have hrc : (initState pd cats vid cfid).retry_count = 0 := rfl
  rw [hrc] at hb
  omega

/-- Witness for C1: a concrete run in which every catalog query raises
executes the catalog node at most 4 times. -/
theorem C1_catalog_query_bound_witness :
    ((loopRun "a-key" failAllOracles 4 0 (initState "front brake pad" "cats" 19942 1)).getD
        ⟨.ok {}, 0⟩).partsCalls ≤ 4 := by
  cases hout : loopRun "a-key" failAllOracles 4 0 (initState "front brake pad" "cats" 19942 1) with
  | none => simp
  | some out =>
    have := C1_catalog_query_bound "a-key" failAllOracles "front brake pad" "cats" 19942 1 4 out hout
    simpa using this

/-- Claim C2: whenever the routing step sees an empty or failed catalog
query (error `API_UNAVAILABLE` or `API_ERROR`), the retry counter was
incremented by exactly 1 and the chat history carried forward with the
invalid-category message appended; the router loops back to
`infer_category` below the cap of 3 and terminates at the cap, the number
of loop-backs never exceeds 3, and when every catalog query fails,
`run_workflow` returns a result with status `MAX_RETRIES`. -/
theorem C2_retry_routing_max_retries :
    (∀ (key : String) (pp : Except String Prompts) (api : Except String CatalogResp)
       (st s' : AgentState),
      getPartsListNode key pp api st = .ok s' →
      (s'.error = "API_UNAVAILABLE" ∨ s'.error = "API_ERROR") →
      s'.retry_count = st.retry_count + 1 ∧ ∃ m, s'.chat_history = st.chat_history ++ [m]) ∧
    (∀ st : AgentState, (st.error = "API_UNAVAILABLE" ∨ st.error = "API_ERROR") →
      (st.retry_count < 3 → shouldRetry st = "infer_category") ∧
      (st.retry_count ≥ 3 → shouldRetry st = "end")) ∧
    (∀ (key : String) (O : Oracles) (pd cats : String) (vid cfid : Int) (fuel : Nat)
       (out : LoopOut),
      loopRun key O fuel 0 (initState pd cats vid cfid) = some out →
      out.partsCalls - 1 ≤ 3) ∧
    (∀ (key : String) (O : Oracles) (pd cats : String) (vid cfid : Int),
      (∀ i, ∃ p, O.partsPrompts i = .ok p) →
      (∀ i, catalogFails (O.api i)) →
      (runWorkflow key O pd cats vid cfid).status = "MAX_RETRIES" ∧
      (runWorkflow key O pd cats vid cfid).retry_count = 3) := by
  refine ⟨?_, ?_, ?_, ?_⟩
  · intro key pp api st s' h herr
    rcases getPartsListNode_ok_cases key pp api st s' h with ⟨_, hrc, _, hm⟩ | ⟨hok, _, _⟩
    · exact ⟨hrc, hm⟩
    · rw [hok] at herr
      rcases herr with h' | h' <;> simp at h'
  · intro st hf
    exact ⟨fun hlt => shouldRetry_fail_lt st hf hlt, fun hge => shouldRetry_fail_ge st hf hge⟩
  · intro key O pd cats vid cfid fuel out h
    have hb := loopRun_partsCalls_le key O fuel 0 (initState pd cats vid cfid) out h
    have hrc : (initState pd cats vid cfid).retry_count = 0 := rfl
    rw [hrc] at hb
    omega
  · intro key O pd cats vid cfid hpp hapi
    obtain ⟨fs, hloop, hfs3, hfsres⟩ :=
      loopRun_all_fail key O hpp hapi 3 (by omega) (by omega) 0
        (initState pd cats vid cfid) rfl 4 (by omega)
    have hres0 : fs.result = none := by rw [hfsres]; rfl
    have hw : runWorkflow key O pd cats vid cfid =
        { status := "MAX_RETRIES", message := "Unable to find valid category after 3 attempts",
          retry_count := fs.retry_count, oem_numbers := [], s3image_uri := "" } := by
      unfold runWorkflow
      rw [hloop]
      simp only
      rw [if_pos ⟨by omega, hres0⟩]
    exact ⟨by rw [hw], by rw [hw]; exact hfs3⟩

/-- Witness for C2: a concrete run in which every catalog query raises ends
with `MAX_RETRIES` after retry count 3, and the router's two verdicts at
concrete failed states. -/
theorem C2_retry_routing_max_retries_witness :
    ((runWorkflow "a-key" failAllOracles "front brake pad" "cats" 19942 1).status =
        "MAX_RETRIES" ∧
     (runWorkflow "a-key" failAllOracles "front brake pad" "cats" 19942 1).retry_count = 3) ∧
    shouldRetry { error := "API_ERROR", retry_count := 1 } = "infer_category" ∧
    shouldRetry { error := "API_UNAVAILABLE", retry_count := 3 } = "end" :=
  ⟨C2_retry_routing_max_retries.2.2.2 "a-key" failAllOracles "front brake pad" "cats" 19942 1
      (fun _ => ⟨okPrompts, rfl⟩) (fun _ => by trivial),
   (C2_retry_routing_max_retries.2.1 { error := "API_ERROR", retry_count := 1 }
      (Or.inr rfl)).1 (by decide),
   (C2_retry_routing_max_retries.2.1 { error := "API_UNAVAILABLE", retry_count := 3 }
      (Or.inl rfl)).2 (by decide)⟩
